import Mathlib

/-!
Verification of the Semantic Content Index of the News_Agent repository.

The development shallowly embeds the Python sources:
  * `src/core/models.py` — the `ContentItem` data model and its pydantic
    validator deriving a quality level from the quality score;
  * `src/tools/storage/vector_store.py` — the `ChromaVectorStoreTool`
    orchestrator (store / retrieve / search / similar / delete / update and
    the text projector `_prepare_text_for_embedding`);
  * `src/tools/base.py` — `ToolResult` and the exception-wrapping `_run`
    of `NewsAgentBaseTool`.

The Chroma collection itself is an external library (not part of the
repository); it is modelled from the spec's Vector Index contract (§4.3):
a finite list of entries keyed by id, with insert / fetch / nearest-neighbour
query (ascending distance, optional metadata filter, at most `k` results) /
idempotent delete / count.  The embedding provider and the distance metric
are parameters: `embed : String → Except String (List ℚ)` (the `.error`
branch models the provider raising) and `dist : List ℚ → List ℚ → ℚ`.
Exceptions are modelled by `Except String`; `VectorStoreException` messages
keep the source's message prefixes.
-/

set_option maxRecDepth 100000

deriving instance DecidableEq for Except

namespace NewsAgent

/-- Embedding of `ContentType` from `src/core/models.py`. -/
inductive ContentType where
  | academic_paper
  | blog_post
  | news_article
  | social_post
  | technical_report
  | conference_paper
deriving DecidableEq, Repr

/-- The `.value` of the Python `str`-enum `ContentType`. -/
def ContentType.value : ContentType → String
  | .academic_paper => "academic_paper"
  | .blog_post => "blog_post"
  | .news_article => "news_article"
  | .social_post => "social_post"
  | .technical_report => "technical_report"
  | .conference_paper => "conference_paper"

/-- Embedding of `ProcessingStatus` from `src/core/models.py`. -/
inductive ProcessingStatus where
  | pending
  | processing
  | completed
  | failed
  | skipped
deriving DecidableEq, Repr

/-- Embedding of `QualityLevel` from `src/core/models.py`. -/
inductive QualityLevel where
  | high
  | medium
  | low
  | very_low
deriving DecidableEq, Repr

/-- Embedding of `ContentItem` from `src/core/models.py`.  Datetimes are kept
as their ISO strings (the vector store only ever calls `isoformat()` on
them); scores are rationals; the free-form `metadata`/`raw_data` fields are
omitted (no claim touches them and the vector store does not read them). -/
structure ContentItem where
  id : String
  title : String
  content : String
  summary : Option String := none
  url : String
  content_type : ContentType
  source_id : String
  source_name : String
  authors : List String := []
  tags : List String := []
  categories : List String := []
  language : String := "en"
  published_at : String
  collected_at : String := ""
  processed_at : Option String := none
  quality_score : ℚ := 0
  quality_level : Option QualityLevel := none
  relevance_score : ℚ := 0
  importance_score : ℚ := 0
  processing_status : ProcessingStatus := .pending
  error_message : Option String := none
deriving DecidableEq, Repr

/-- Embedding of the pydantic validator `ContentItem.set_quality_level`
(`src/core/models.py` lines 102-114): with no explicit override the quality
level is bucketed from the quality score. -/
def set_quality_level (v : Option QualityLevel) (quality_score : ℚ) :
    Option QualityLevel :=
  match v with
  | none =>
      if quality_score ≥ 0.8 then some .high
      else if quality_score ≥ 0.6 then some .medium
      else if quality_score ≥ 0.3 then some .low
      else some .very_low
  | some _ => v

/-- Pydantic model construction: the `always=True` validator rewrites the
`quality_level` field from the already-validated `quality_score`. -/
def validateContentItem (c : ContentItem) : ContentItem :=
  { c with quality_level := set_quality_level c.quality_level c.quality_score }

/-- The spec's wording of the quality bucketing (§3): score ≥ 0.8 → high,
≥ 0.6 → medium, ≥ 0.3 → low, else very-low.  Stated separately from
`set_quality_level` so the two can be compared. -/
def specQualityBucket (score : ℚ) : QualityLevel :=
  if score ≥ 0.8 then .high
  else if score ≥ 0.6 then .medium
  else if score ≥ 0.3 then .low
  else .very_low

/-- Python's slice `s[:n]` — the first `n` characters (code points) of `s`,
computed on the character list so the kernel recursion stops at the end of
the string. -/
def pyTake (s : String) (n : Nat) : String := ⟨s.data.take n⟩

/-- Embedding of `ChromaVectorStoreTool._prepare_text_for_embedding`
(`vector_store.py` lines 268-287), mirroring the Python sequential
`text_parts` appends, including the truthiness tests (`if content.summary:`
skips both `None` and the empty string) and the 1000-character body prefix. -/
def _prepare_text_for_embedding (content : ContentItem) : String :=
  let text_parts : List String := [content.title]
  let text_parts :=
    match content.summary with
    | some s => if s ≠ "" then text_parts ++ [s] else text_parts
    | none => text_parts
  let text_parts :=
    if content.content ≠ "" then text_parts ++ [pyTake content.content 1000]
    else text_parts
  let text_parts :=
    if content.authors ≠ [] then
      text_parts ++ ["作者: " ++ String.intercalate ", " content.authors]
    else text_parts
  let text_parts :=
    if content.tags ≠ [] then
      text_parts ++ ["标签: " ++ String.intercalate ", " content.tags]
    else text_parts
  String.intercalate "\n" text_parts

/-- The spec's wording of the text projector (§4.1): title; then summary if
present; then the first 1000 characters of body text if present; then an
authors line if authors non-empty; then a tags line if tags non-empty;
joined with newlines, skipped fields contributing no line at all. -/
def specProjectLines (c : ContentItem) : List String :=
  [c.title]
    ++ (match c.summary with
        | some s => if s = "" then [] else [s]
        | none => [])
    ++ (if c.content = "" then [] else [pyTake c.content 1000])
    ++ (if c.authors = [] then []
        else ["作者: " ++ String.intercalate ", " c.authors])
    ++ (if c.tags = [] then []
        else ["标签: " ++ String.intercalate ", " c.tags])

/-- Modelled from the spec: the metadata snapshot kept by the Vector Index
(§3, `IndexEntry`), matching the dictionary built in
`ChromaVectorStoreTool.store_content` (lines 73-83).  List-valued fields are
serialized to strings because the index's metadata storage only accepts
scalar values. -/
structure EntryMeta where
  title : String
  source_name : String
  content_type : String
  published_at : String
  quality_score : ℚ
  url : String
  authors : String
  categories : String
  tags : String
deriving DecidableEq, Repr

/-- Model of Python's `json.dumps` on a list of strings (escaping of special
characters inside the strings is elided; no claim inspects it). -/
def jsonDumpsList (l : List String) : String :=
  "[" ++ String.intercalate ", " (l.map (fun s => "\"" ++ s ++ "\"")) ++ "]"

/-- Modelled from the spec: one Vector Index entry (§3, `IndexEntry`):
(id, vector, text blob, metadata snapshot). -/
structure IndexEntry where
  id : String
  emb : List ℚ
  doc : String
  meta : EntryMeta
deriving DecidableEq, Repr

/-- Modelled from the spec: the Vector Index state (§4.3) — the Chroma
collection is external to the repository.  A finite list of entries, one per
content id. -/
abbrev Index := List IndexEntry

/-- Modelled from the spec: `fetch(id) -> entry or absent` (§4.3). -/
def indexFetch (st : Index) (cid : String) : Option IndexEntry :=
  st.find? (fun e => e.id == cid)

/-- Modelled from the spec: `insert(id, vector, text, metadata)` adds or
overwrites the entry for an id (§4.3); overwrite is chosen for the
implementation-defined duplicate-id case, which the orchestrator never
relies on (update always deletes first). -/
def indexInsert (st : Index) (e : IndexEntry) : Index :=
  if (st.find? (fun x => x.id == e.id)).isSome then
    st.map (fun x => if x.id == e.id then e else x)
  else st ++ [e]

/-- Modelled from the spec: `delete(id)` removes the entry, idempotent —
deleting a non-existent id is not an error (§4.3). -/
def indexDelete (st : Index) (cid : String) : Index :=
  st.filter (fun e => !(e.id == cid))

/-- Modelled from the spec: `count()` (§4.3). -/
def indexCount (st : Index) : Nat := st.length

/-- Comparison of two entries by distance to the query vector, the order in
which the Vector Index ranks query results (§4.3: ascending by distance). -/
def distLE (dist : List ℚ → List ℚ → ℚ) (qv : List ℚ) (a b : IndexEntry) :
    Prop :=
  dist qv a.emb ≤ dist qv b.emb

instance (dist : List ℚ → List ℚ → ℚ) (qv : List ℚ) :
    DecidableRel (distLE dist qv) :=
  fun a b => (inferInstance : Decidable (dist qv a.emb ≤ dist qv b.emb))

/-- Modelled from the spec: `query(vector, k, filter?)` (§4.3) — restrict to
entries whose metadata matches the filter, rank ascending by distance to the
query vector (closest first), return at most `k`. -/
def indexQuery (dist : List ℚ → List ℚ → ℚ) (st : Index) (qv : List ℚ)
    (k : Nat) (w : Option (EntryMeta → Bool)) : List IndexEntry :=
  let candidates : List IndexEntry :=
    match w with
    | some p => st.filter (fun e => p e.meta)
    | none => st
  (candidates.insertionSort (distLE dist qv)).take k

/-- A search result as formatted by `search_content` /
`search_similar_content` (`vector_store.py` lines 157-162 and 197-202):
id, stored document, metadata snapshot, and `1 - distance` as the
similarity score. -/
structure SearchResult where
  id : String
  content : String
  metadata : EntryMeta
  similarity_score : ℚ
deriving DecidableEq, Repr

/-- The metadata dictionary built in `store_content` (lines 73-83):
scalar fields copied, `content_type.value`, `published_at.isoformat()`, and
`json.dumps` of the three list fields. -/
def buildMetadata (c : ContentItem) : EntryMeta :=
  { title := c.title
    source_name := c.source_name
    content_type := c.content_type.value
    published_at := c.published_at
    quality_score := c.quality_score
    url := c.url
    authors := jsonDumpsList c.authors
    categories := jsonDumpsList c.categories
    tags := jsonDumpsList c.tags }

/-- Embedding of `ChromaVectorStoreTool.store_content` (lines 65-98):
project the record's text, embed it, build the metadata snapshot, add to the
collection, return the record id.  An embedding failure is re-raised as
`VectorStoreException("存储内容失败: ...")` before the collection is
touched, so the returned state is the unchanged input state. -/
def store_content (embed : String → Except String (List ℚ)) (st : Index)
    (content : ContentItem) : Index × Except String String :=
  match embed (_prepare_text_for_embedding content) with
  | .error e => (st, .error ("存储内容失败: " ++ e))
  | .ok embedding =>
      (indexInsert st
        { id := content.id
          emb := embedding
          doc := _prepare_text_for_embedding content
          meta := buildMetadata content },
       .ok content.id)

/-- Embedding of `ChromaVectorStoreTool.retrieve_content` (lines 100-132).
When no entry has the id, the `ids` list is empty and the method returns
`None`.  When an entry is found, the reconstruction at line 126 evaluates
`datetime.fromisoformat(...)`, but `datetime` is never imported in
`vector_store.py`: the call raises `NameError("name 'datetime' is not
defined")`, which the `except` at line 130 re-raises as
`VectorStoreException("检索内容失败: ...")`.  The found branch therefore
always errors. -/
def retrieve_content (st : Index) (content_id : String) :
    Except String (Option ContentItem) :=
  match indexFetch st content_id with
  | none => .ok none
  | some _ => .error "检索内容失败: name 'datetime' is not defined"

/-- Formatting of one raw query hit into a `SearchResult`
(lines 157-162): similarity is `1 - distance`. -/
def formatResult (dist : List ℚ → List ℚ → ℚ) (qv : List ℚ)
    (e : IndexEntry) : SearchResult :=
  { id := e.id
    content := e.doc
    metadata := e.meta
    similarity_score := 1 - dist qv e.emb }

/-- Embedding of `ChromaVectorStoreTool.search_content` (lines 134-166):
embed the query text, run the index query with the optional metadata
filter, format each hit in index order converting distance to similarity. -/
def search_content (embed : String → Except String (List ℚ))
    (dist : List ℚ → List ℚ → ℚ) (st : Index) (query : String)
    (n_results : Nat) (w : Option (EntryMeta → Bool)) :
    Except String (List SearchResult) :=
  match embed query with
  | .error e => .error ("搜索失败: " ++ e)
  | .ok qv =>
      .ok ((indexQuery dist st qv n_results w).map (formatResult dist qv))

/-- Embedding of `ChromaVectorStoreTool.search_similar_content`
(lines 172-209): embed the record's own projected text, request
`n_results + 1` neighbours when excluding self, skip the hit whose id equals
the record's own id, and truncate the formatted list to `n_results`. -/
def search_similar_content (embed : String → Except String (List ℚ))
    (dist : List ℚ → List ℚ → ℚ) (st : Index) (content_item : ContentItem)
    (n_results : Nat) (exclude_self : Bool) :
    Except String (List SearchResult) :=
  match embed (_prepare_text_for_embedding content_item) with
  | .error e => .error ("相似内容搜索失败: " ++ e)
  | .ok embedding =>
      let raw :=
        indexQuery dist st embedding
          (n_results + (if exclude_self then 1 else 0)) none
      let kept :=
        raw.filter (fun e => !(exclude_self && e.id == content_item.id))
      .ok ((kept.map (formatResult dist embedding)).take n_results)

/-- Embedding of `ChromaVectorStoreTool.delete_content` (lines 211-220): the
collection delete is idempotent (§4.3 — deleting a non-existent id is not an
error), so the `except` branch that would return `False` is unreachable in
this model and the method reports `True`. -/
def delete_content (st : Index) (content_id : String) : Index × Bool :=
  (indexDelete st content_id, true)

/-- Embedding of `ChromaVectorStoreTool.update_content` (lines 222-233):
delete the old entry, then store the new content; a raise from `store`
is caught and reported as `False`, leaving the state the delete produced. -/
def update_content (embed : String → Except String (List ℚ)) (st : Index)
    (content : ContentItem) : Index × Bool :=
  let deleted := delete_content st content.id
  let stored := store_content embed deleted.fst content
  match stored.snd with
  | .ok _ => (stored.fst, true)
  | .error _ => (stored.fst, false)

/-- Embedding of `ToolResult` from `src/tools/base.py` (lines 16-22),
polymorphic in the payload carried by `data` (Python's `Any`). -/
structure ToolResult (α : Type) where
  success : Bool
  data : Option α := none
  error : Option String := none
  metadata : List (String × String) := []
  execution_time : Option ℚ := none
deriving DecidableEq, Repr

/-- Embedding of `NewsAgentBaseTool._run` (`base.py` lines 32-53): run the
tool's `_execute`; return its result unchanged on success, and on any
exception return a failed `ToolResult` carrying the exception's message and
the tool name / query in the metadata. -/
def _run (α : Type) (name : String)
    (_execute : String → Except String (ToolResult α)) (query : String) :
    ToolResult α :=
  match _execute query with
  | .ok result => result
  | .error e =>
      { success := false
        error := some e
        metadata := [("tool_name", name), ("query", query)] }

/-! ### Concrete fixtures used by witnesses and counterexamples -/

/-- A concrete embedding provider: raises on empty text (the provider cannot
embed an empty string), otherwise returns a 1-dimensional vector. -/
def embed0 : String → Except String (List ℚ) :=
  fun s => if s = "" then .error "empty text" else .ok [(s.length : ℚ)]

/-- A concrete distance metric, bounded in [0,1]: identical vectors are at
distance 0, distinct ones at distance 1. -/
def dist0 : List ℚ → List ℚ → ℚ :=
  fun u v => if u == v then 0 else 1

/-- A constant distance metric, trivially bounded in [0,1]. -/
def distZero : List ℚ → List ℚ → ℚ :=
  fun _ _ => 0

/-- A concrete content record. -/
def rec0 : ContentItem :=
  { id := "doc-1", title := "Hello", content := "body text",
    url := "http://a", content_type := .news_article, source_id := "s1",
    source_name := "Feed", published_at := "2024-01-01T00:00:00" }

/-- A second concrete content record with a different id. -/
def rec2 : ContentItem :=
  { id := "doc-2", title := "World", content := "other stuff",
    url := "http://b", content_type := .blog_post, source_id := "s2",
    source_name := "Blog", published_at := "2024-02-02T00:00:00" }

/-- A record whose title, body and summary are all empty: its projected text
is the empty string, which `embed0` refuses to embed. -/
def recEmpty : ContentItem :=
  { id := "doc-empty", title := "", content := "", url := "http://c",
    content_type := .news_article, source_id := "s3", source_name := "Feed",
    published_at := "2024-03-03T00:00:00" }

/-- An index holding `rec0` and `rec2`, built by two stores. -/
def idx1 : Index :=
  (store_content embed0 (store_content embed0 [] rec0).fst rec2).fst

/-- The index entry `idx1` holds for `rec2`. -/
def entry2 : IndexEntry :=
  { id := "doc-2", emb := [17], doc := "World\nother stuff",
    meta := buildMetadata rec2 }

/-- The index entry `idx1` holds for `rec0`. -/
def entry0 : IndexEntry :=
  { id := "doc-1", emb := [15], doc := "Hello\nbody text",
    meta := buildMetadata rec0 }

/-- `rec0` with its body text replaced, for exercising `update_content`. -/
def rec0b : ContentItem := { rec0 with content := "updated body" }

/-- The index after storing just `rec0`. -/
def st0 : Index := (store_content embed0 [] rec0).fst

/-! ### Helper lemmas about the index query -/

/-- The index query ranks its candidates ascending by distance to the query
vector, and a prefix of a sorted list is sorted. -/
theorem indexQuery_sorted (dist : List ℚ → List ℚ → ℚ) (st : Index)
    (qv : List ℚ) (k : Nat) (w : Option (EntryMeta → Bool)) :
    (indexQuery dist st qv k w).Sorted (distLE dist qv) := by
  haveI : IsTotal IndexEntry (distLE dist qv) := ⟨fun a b => le_total _ _⟩
  haveI : IsTrans IndexEntry (distLE dist qv) :=
    ⟨fun _ _ _ hab hbc => le_trans hab hbc⟩
  unfold indexQuery
  exact List.Pairwise.sublist (List.take_sublist _ _)
    (List.sorted_insertionSort _ _)

/-- Every entry the index query returns is an entry of the index. -/
theorem mem_of_mem_indexQuery {dist : List ℚ → List ℚ → ℚ} {st : Index}
    {qv : List ℚ} {k : Nat} {w : Option (EntryMeta → Bool)} {e : IndexEntry}
    (he : e ∈ indexQuery dist st qv k w) : e ∈ st := by
  unfold indexQuery at he
  have h1 := List.take_subset _ _ he
  have h2 := (List.perm_insertionSort (distLE dist qv) _).mem_iff.mp h1
  cases w with
  | none => simpa using h2
  | some p =>
      have h3 : e ∈ st.filter (fun x => p x.meta) := by simpa using h2
      exact List.mem_of_mem_filter h3

/-! ### Claim theorems -/

/-- C1: the claim says `retrieve(store(r)).id == r.id`.  The code cannot
satisfy it: `store_content` succeeds and returns the id, but
`retrieve_content` on that id reaches the record reconstruction at
`vector_store.py` line 126, which evaluates `datetime.fromisoformat` with
`datetime` not imported in the module, so it raises `NameError`, re-raised
as `VectorStoreException`, instead of returning a record. -/
theorem store_then_retrieve_raises_NameError :
    (store_content embed0 [] rec0).snd = .ok rec0.id ∧
    retrieve_content (store_content embed0 [] rec0).fst rec0.id =
      .error "检索内容失败: name 'datetime' is not defined" := by
  decide

/-- C2: if the embedding provider raises on the record's projected text,
`store_content` fails with the typed error (message prefix 存储内容失败)
and the index is unchanged — in particular its count is unchanged, so no
entry was created. -/
theorem store_content_embed_failure_atomic
    (embed : String → Except String (List ℚ)) (st : Index) (c : ContentItem)
    (m : String) (h : embed (_prepare_text_for_embedding c) = .error m) :
    (store_content embed st c).snd = .error ("存储内容失败: " ++ m) ∧
    (store_content embed st c).fst = st ∧
    indexCount (store_content embed st c).fst = indexCount st := by
  simp [store_content, h]

/-- Witness for C2: `recEmpty` has empty title, body and summary, its
projected text is the empty string, and `embed0` raises on it; the store
against `idx1` fails and leaves `idx1` unchanged. -/
theorem store_content_embed_failure_atomic_witness :
    (store_content embed0 idx1 recEmpty).snd =
      .error ("存储内容失败: " ++ "empty text") ∧
    (store_content embed0 idx1 recEmpty).fst = idx1 ∧
    indexCount (store_content embed0 idx1 recEmpty).fst = indexCount idx1 :=
  store_content_embed_failure_atomic embed0 idx1 recEmpty "empty text"
    (by decide)

/-- C4 counterexample: the claim says `delete` on an id not present returns
`false`; on the empty index it returns `true` — the underlying index delete
is idempotent (§4.3), so the `except` branch returning `False` is not
taken. -/
theorem delete_content_unknown_id_counterexample :
    (delete_content ([] : Index) "missing").snd = true ∧
    (delete_content ([] : Index) "missing").snd ≠ false := by
  decide

/-- C4 amended: `delete_content` never raises and reports a boolean, but on
an id not present in the index it reports `true` (the underlying delete is
an idempotent no-op) and leaves the index unchanged. -/
theorem delete_content_reports_bool (st : Index) (cid : String)
    (h : indexFetch st cid = none) :
    (delete_content st cid).snd = true ∧ (delete_content st cid).fst = st := by
  refine ⟨rfl, ?_⟩
  simp only [delete_content, indexDelete]
  rw [List.filter_eq_self]
  intro e he
  have hall := List.find?_eq_none.mp h e he
  simpa using hall

/-- Witness for C4 amended: deleting from the empty index. -/
theorem delete_content_reports_bool_witness :
    (delete_content ([] : Index) "missing").snd = true ∧
    (delete_content ([] : Index) "missing").fst = ([] : Index) :=
  delete_content_reports_bool [] "missing" rfl

/-- C5: `update_content` is delete-then-store and, with `rec0.id` already
indexed, reports success with the index count unchanged and the stored
entry holding the new projected text; but the claim's final clause —
`retrieve(r.id)` reflects the new content — fails: `retrieve_content`
raises the `NameError` of the missing `datetime` import instead of
returning the updated record. -/
theorem update_content_delete_store_retrieve_bug :
    (update_content embed0 st0 rec0b).snd = true ∧
    (update_content embed0 st0 rec0b).fst =
      (store_content embed0 (delete_content st0 rec0b.id).fst rec0b).fst ∧
    indexCount (update_content embed0 st0 rec0b).fst = indexCount st0 ∧
    (indexFetch (update_content embed0 st0 rec0b).fst rec0.id).map
        IndexEntry.doc = some (_prepare_text_for_embedding rec0b) ∧
    retrieve_content (update_content embed0 st0 rec0b).fst rec0.id =
      .error "检索内容失败: name 'datetime' is not defined" := by
  decide

/-- C3: for every record, k ≥ 1, and successful
`search_similar_content` call with `exclude_self = true`, the result never
contains an entry with the record's own id and has length at most k (the
method requests k+1 neighbours, filters out the self hit, truncates to k). -/
theorem search_similar_excludes_self (embed : String → Except String (List ℚ))
    (dist : List ℚ → List ℚ → ℚ) (st : Index) (c : ContentItem) (k : Nat)
    (res : List SearchResult) (_hk : 1 ≤ k)
    (h : search_similar_content embed dist st c k true = .ok res) :
    res.length ≤ k ∧ ∀ r ∈ res, r.id ≠ c.id := by
  unfold search_similar_content at h
  cases hembed : embed (_prepare_text_for_embedding c) with
  | error e => rw [hembed] at h; cases h
  | ok embv =>
      rw [hembed] at h
      simp only [Except.ok.injEq] at h
      subst h
      constructor
      · exact List.length_take_le _ _
      · intro r hr
        have hr1 := List.take_subset _ _ hr
        obtain ⟨e, he, rfl⟩ := List.mem_map.mp hr1
        have he2 := (List.mem_filter.mp he).2
        simp only [Bool.true_and, Bool.not_eq_eq_eq_not, Bool.not_true,
          beq_eq_false_iff_ne, ne_eq] at he2
        simpa [formatResult] using he2

/-- The result `search_similar_content` returns in the C3 witness scenario:
the non-self neighbour `entry2`, at distance 1 from `rec0`'s embedding. -/
def resW3 : List SearchResult := [formatResult dist0 [(15 : ℚ)] entry2]

/-- Witness for C3: on `idx1` (which holds `rec0` itself and `rec2`),
finding content similar to `rec0` with k = 1 excludes `rec0`'s own id and
returns one result. -/
theorem search_similar_excludes_self_witness :
    resW3.length ≤ 1 ∧ ∀ r ∈ resW3, r.id ≠ rec0.id :=
  search_similar_excludes_self embed0 dist0 idx1 rec0 1 resW3 (by decide)
    (by rfl)

/-- C6: every successful `search_content` call returns results whose
similarity scores are non-increasing from first to last: the index's
closest-first (ascending-distance) order is preserved through the
`1 - distance` conversion. -/
theorem search_content_sorted (embed : String → Except String (List ℚ))
    (dist : List ℚ → List ℚ → ℚ) (st : Index) (q : String) (k : Nat)
    (w : Option (EntryMeta → Bool)) (res : List SearchResult)
    (h : search_content embed dist st q k w = .ok res) :
    res.Pairwise (fun a b => b.similarity_score ≤ a.similarity_score) := by
  unfold search_content at h
  cases hembed : embed q with
  | error e => rw [hembed] at h; cases h
  | ok qv =>
      rw [hembed] at h
      simp only [Except.ok.injEq] at h
      subst h
      rw [List.pairwise_map]
      refine (indexQuery_sorted dist st qv k w).imp ?_
      intro a b hab
      simp only [formatResult]
      have : dist qv a.emb ≤ dist qv b.emb := hab
      linarith

/-- The result list of the C6 witness search: both of `idx1`'s entries at
distance 1 from the query embedding. -/
def resW6 : List SearchResult :=
  [formatResult dist0 [(5 : ℚ)] entry0, formatResult dist0 [(5 : ℚ)] entry2]

/-- Witness for C6: a concrete search over `idx1` returns `resW6`, whose
similarity scores are non-increasing. -/
theorem search_content_sorted_witness :
    resW6.Pairwise (fun a b => b.similarity_score ≤ a.similarity_score) :=
  search_content_sorted embed0 dist0 idx1 "Hello" 10 none resW6 (by rfl)

/-- C7: provided the distance metric the index reports is bounded in [0,1]
(the assumption the spec documents for the `1 − distance` conversion), every
similarity score carried by a `search_content` or `search_similar_content`
result lies in [0,1]. -/
theorem similarity_scores_in_unit_interval
    (embed : String → Except String (List ℚ))
    (dist : List ℚ → List ℚ → ℚ) (st : Index)
    (hdist : ∀ u v : List ℚ, 0 ≤ dist u v ∧ dist u v ≤ 1) :
    (∀ q k w res, search_content embed dist st q k w = .ok res →
      ∀ r ∈ res, 0 ≤ r.similarity_score ∧ r.similarity_score ≤ 1) ∧
    (∀ c k es res, search_similar_content embed dist st c k es = .ok res →
      ∀ r ∈ res, 0 ≤ r.similarity_score ∧ r.similarity_score ≤ 1) := by
  constructor
  · intro q k w res h r hr
    unfold search_content at h
    cases hembed : embed q with
    | error e => rw [hembed] at h; cases h
    | ok qv =>
        rw [hembed] at h
        simp only [Except.ok.injEq] at h
        subst h
        obtain ⟨e, _, rfl⟩ := List.mem_map.mp hr
        obtain ⟨h0, h1⟩ := hdist qv e.emb
        constructor <;> simp only [formatResult] <;> linarith
  · intro c k es res h r hr
    unfold search_similar_content at h
    cases hembed : embed (_prepare_text_for_embedding c) with
    | error e => rw [hembed] at h; cases h
    | ok embv =>
        rw [hembed] at h
        simp only [Except.ok.injEq] at h
        subst h
        have hr1 := List.take_subset _ _ hr
        obtain ⟨e, _, rfl⟩ := List.mem_map.mp hr1
        obtain ⟨h0, h1⟩ := hdist embv e.emb
        constructor <;> simp only [formatResult] <;> linarith

/-- The head of the C7 witness search result over `idx1` with the constant
distance metric `distZero`. -/
def resW7head : SearchResult := formatResult distZero [(5 : ℚ)] entry0

/-- The full C7 witness search result. -/
def resW7 : List SearchResult :=
  [resW7head, formatResult distZero [(5 : ℚ)] entry2]

/-- Witness for C7: with the bounded metric `distZero`, a concrete search
over `idx1` succeeds and its first result's similarity score is in [0,1]. -/
theorem similarity_scores_in_unit_interval_witness :
    0 ≤ resW7head.similarity_score ∧ resW7head.similarity_score ≤ 1 :=
  (similarity_scores_in_unit_interval embed0 distZero idx1
      (fun u v => ⟨le_refl 0, by norm_num [distZero]⟩)).1
    "Hello" 10 none resW7 (by rfl) resW7head (by simp [resW7])

/-- C8: with no explicit quality-level override, pydantic validation sets
the record's quality level to exactly the spec's pure bucketing of its
quality score (≥ 0.8 high, ≥ 0.6 medium, ≥ 0.3 low, else very-low); any
record whose quality score is (re)set goes through this same validator. -/
theorem quality_level_is_bucket_of_score (c : ContentItem)
    (h : c.quality_level = none) :
    (validateContentItem c).quality_level =
      some (specQualityBucket c.quality_score) := by
  unfold validateContentItem
  rw [h]
  unfold set_quality_level specQualityBucket
  split_ifs <;> rfl

/-- A record carrying a quality score of 0.7 and no level override. -/
def recQ : ContentItem := { rec0 with quality_score := 0.7 }

/-- Witness for C8: validating `recQ` derives its quality level from its
score, and the 0.7 score buckets to `medium`. -/
theorem quality_level_is_bucket_of_score_witness :
    (validateContentItem recQ).quality_level =
      some (specQualityBucket recQ.quality_score) :=
  quality_level_is_bucket_of_score recQ rfl

/-- C9: the projected embeddable text equals the spec's composition —
title; then summary if present and non-empty; then the first 1000
characters of the body if non-empty; then an authors line if authors
non-empty; then a tags line if tags non-empty — joined with newlines, with
skipped fields contributing no line at all. -/
theorem prepare_text_matches_spec (c : ContentItem) :
    _prepare_text_for_embedding c =
      String.intercalate "\n" (specProjectLines c) := by
  unfold _prepare_text_for_embedding specProjectLines
  cases hs : c.summary <;>
    simp only [hs] <;> split_ifs <;> simp_all [List.append_assoc]

/-- C10: the base tool's `_run` returns `_execute`'s result unchanged when
it succeeds, and converts any exception raised by `_execute` into a
`ToolResult` with `success = false` carrying the exception's message,
never propagating the exception. -/
theorem run_wraps_execute (α : Type) (name : String)
    (ex : String → Except String (ToolResult α)) (q : String) :
    (∀ r, ex q = .ok r → _run α name ex q = r) ∧
    (∀ e, ex q = .error e → _run α name ex q =
      { success := false, data := none, error := some e,
        metadata := [("tool_name", name), ("query", q)],
        execution_time := none }) := by
  constructor <;> intro x hx <;> simp [_run, hx]

/-- A successful `_execute` fixture. -/
def exOk : String → Except String (ToolResult Nat) :=
  fun _ => .ok { success := true, data := some 3 }

/-- An `_execute` fixture that raises. -/
def exErr : String → Except String (ToolResult Nat) :=
  fun _ => .error "boom"

/-- Witness for C10: `_run` passes a successful result through unchanged and
converts a raised exception into a failed `ToolResult` with the message. -/
theorem run_wraps_execute_witness :
    _run Nat "chroma_vector_store" exOk "q" =
      { success := true, data := some 3, error := none, metadata := [],
        execution_time := none } ∧
    _run Nat "chroma_vector_store" exErr "q" =
      { success := false, data := none, error := some "boom",
        metadata := [("tool_name", "chroma_vector_store"), ("query", "q")],
        execution_time := none } :=
  ⟨(run_wraps_execute Nat "chroma_vector_store" exOk "q").1 _ rfl,
   (run_wraps_execute Nat "chroma_vector_store" exErr "q").2 "boom" rfl⟩

end NewsAgent
